import Mathlib

/-!
Shallow embedding of the agent-orchestration core of the gemini-slknight
backend: `src/backend/src/agents/orchestrator.ts` (call orchestrator, health
registry, checklist) and `agentBus.ts` (event bus, chain tracking,
subscriber fan-out).  Machine numbers are modelled as `Int`/`Nat`; the
JavaScript `Math.round` of a quotient is modelled exactly by integer floor
division (`jsRoundRatio`); timestamps and
generated ids are inputs of the model (the source draws them from the clock
and a RNG, neither of which affects any property stated below).
-/

/-- JavaScript `Math.round` applied to the exact quotient `num / den` (with
`den > 0` at every use): `Math.round(x) = ⌊x + 1/2⌋` rounds half toward
positive infinity, and `⌊num/den + 1/2⌋ = ⌊(2*num + den) / (2*den)⌋`.  The
source computes the quotient in IEEE doubles; the operands here stay far below
2^53, so the exact rational quotient is the faithful idealization. -/
def jsRoundRatio (num den : ℤ) : ℤ := Int.fdiv (2 * num + den) (2 * den)

/-- JavaScript truthiness of an optional string (`undefined` and `""` are falsy). -/
def strTruthy : Option String → Bool
  | none => false
  | some s => !(s == "")

/-- JavaScript `o || d` on an optional string: `d` when `o` is absent or empty. -/
def orString (o : Option String) (d : String) : String :=
  match o with
  | none => d
  | some s => if s == "" then d else s

/-- Models `arr.push(x); if (arr.length > cap) arr.shift();` — bounded ring-buffer append. -/
def boundedPush (cap : ℕ) (l : List α) (x : α) : List α :=
  let l2 := l ++ [x]
  if cap < l2.length then l2.drop 1 else l2

-- ============================================================
-- orchestrator.ts — types
-- ============================================================

/-- The closed set of agent identifiers (`AgentName` in orchestrator.ts). -/
inductive AgentName
  | freedom | watchdog | coach | simulator | auditor
  | vision | letter | debate | callScript | futureSelf
deriving DecidableEq, Repr

inductive HealthStatus
  | healthy | degraded | failing
deriving DecidableEq, Repr

/-- Record `AgentCallLog` of orchestrator.ts. -/
structure AgentCallLog where
  id : String
  agent : AgentName
  timestamp : String
  durationMs : ℤ
  success : Bool
  qualityScore : ℤ
  qualityReasoning : String
  retryCount : ℕ
  inputSummary : String
  outputSummary : String
  correctionApplied : Option String
  error : Option String
deriving DecidableEq, Repr

/-- Record `AgentHealth` of orchestrator.ts (`successRate` documented 0-100 there). -/
structure AgentHealth where
  agent : AgentName
  totalCalls : ℕ
  successRate : ℤ
  avgQualityScore : ℤ
  avgLatencyMs : ℤ
  lastCallAt : Option String
  lastError : Option String
  status : HealthStatus
  recentCorrections : List String
deriving DecidableEq, Repr

/-- The module-level orchestrator state (`OrchestratorState` plus the agents map). -/
structure OrchestratorState where
  agents : AgentName → AgentHealth
  totalCalls : ℕ
  totalCorrections : ℕ
  callLog : List AgentCallLog

def MAX_LOG_SIZE : ℕ := 100

def createEmptyHealth (agent : AgentName) : AgentHealth :=
  { agent := agent
    totalCalls := 0
    successRate := 100
    avgQualityScore := 0
    avgLatencyMs := 0
    lastCallAt := none
    lastError := none
    status := HealthStatus.healthy
    recentCorrections := [] }

/-- The state at module load: every agent has an empty health record. -/
def initState : OrchestratorState :=
  { agents := fun a => createEmptyHealth a
    totalCalls := 0
    totalCorrections := 0
    callLog := [] }

/-- Body of `updateHealth` (orchestrator.ts lines 171-211) acting on one health
record.  `fullLog` is `state.callLog` as it stands at the moment of the call —
at both call sites the new `log` has already been pushed into it. -/
def updateHealthRecord (h : AgentHealth) (fullLog : List AgentCallLog)
    (log : AgentCallLog) (agentName : AgentName) : AgentHealth :=
  let n : ℕ := h.totalCalls + 1
  let avgQ : ℤ :=
    if n = 1 then log.qualityScore
    else jsRoundRatio (h.avgQualityScore * (h.totalCalls : ℤ) + log.qualityScore) (n : ℤ)
  let avgL : ℤ :=
    if n = 1 then log.durationMs
    else jsRoundRatio (h.avgLatencyMs * (h.totalCalls : ℤ) + log.durationMs) (n : ℤ)
  let successCount : ℕ :=
    (fullLog.filter (fun l => l.agent == agentName && l.success)).length
      + (if log.success then 1 else 0)
  let rate : ℤ := jsRoundRatio ((successCount : ℤ) * 100) (n : ℤ)
  let newStatus : HealthStatus :=
    if rate < 50 ∨ avgQ < 40 then HealthStatus.failing
    else if rate < 80 ∨ avgQ < 60 then HealthStatus.degraded
    else HealthStatus.healthy
  let newLastError : Option String :=
    if log.success = false ∧ strTruthy log.error then log.error else h.lastError
  let newCorrections : List String :=
    if strTruthy log.correctionApplied then
      let l2 := h.recentCorrections ++ [log.correctionApplied.getD ""]
      if 5 < l2.length then l2.drop 1 else l2
    else h.recentCorrections
  { h with
    totalCalls := n
    lastCallAt := some log.timestamp
    avgQualityScore := avgQ
    avgLatencyMs := avgL
    successRate := rate
    status := newStatus
    lastError := newLastError
    recentCorrections := newCorrections }

/-- Function `updateHealth(agentName, log)` at state level. -/
def updateHealth (st : OrchestratorState) (agentName : AgentName)
    (log : AgentCallLog) : OrchestratorState :=
  { st with agents := fun a =>
      if a = agentName then updateHealthRecord (st.agents agentName) st.callLog log agentName
      else st.agents a }

/-- The state block run at both exits of `orchestrate` (lines 293-297 and
333-336): push the log, evict past the cap, bump `totalCalls`, then
`updateHealth` — in that order, so `updateHealth` sees the pushed log. -/
def recordCall (st : OrchestratorState) (log : AgentCallLog) : OrchestratorState :=
  let st1 : OrchestratorState :=
    { st with
      callLog := boundedPush MAX_LOG_SIZE st.callLog log
      totalCalls := st.totalCalls + 1 }
  updateHealth st1 log.agent log

def getAgentHealthMap (st : OrchestratorState) : AgentName → AgentHealth :=
  st.agents

def getOrchestratorState (st : OrchestratorState) : OrchestratorState :=
  { st with callLog := st.callLog.reverse }

/-- The per-step-rounded rolling average of `updateHealth`, as a standalone
fold: the first value is taken exactly, every later step is
`round((acc*n + v)/(n+1))`. -/
def rollingAvgAux (acc : ℤ) (n : ℕ) : List ℤ → ℤ
  | [] => acc
  | v :: vs =>
      rollingAvgAux
        (if n = 0 then v else jsRoundRatio (acc * (n : ℤ) + v) ((n : ℤ) + 1))
        (n + 1) vs

def rollingAvg (vs : List ℤ) : ℤ := rollingAvgAux 0 0 vs

-- ============================================================
-- orchestrator.ts — the orchestrate retry loop
-- ============================================================

/-- Verdict of the quality evaluator (`QualityEvaluation` in orchestrator.ts).
`evaluateQuality` never throws: its own failures fall back to a passing
verdict, so an attempt that resolves always carries some verdict. -/
structure QualityEvaluation where
  score : ℤ
  reasoning : String
  hasCriticalIssue : Bool
  suggestedFix : Option String
deriving DecidableEq, Repr

/-- The verdict used when `skipQualityCheck` is set (line 263). -/
def defaultQuality : QualityEvaluation :=
  { score := 80, reasoning := "Skipped", hasCriticalIssue := false, suggestedFix := none }

/-- Outcome of one invocation of a unit of work: it resolves with an output
(whose projected text and evaluator verdict we record) or it throws. -/
inductive AttemptOutcome
  | ok (outputStr : String) (quality : QualityEvaluation)
  | err (msg : String)
deriving DecidableEq, Repr

/-- Environment of one `orchestrate` call: its options plus the behaviour of
the caller-supplied units of work.  `agentFn k` is the outcome of the k-th
invocation of the original unit of work, `retryFn k s` of the k-th invocation
of the retry-variant when one was supplied (`retryFnProvided`); `s` is the
correction string the loop passes to it.  `durationMs` is the duration the
final `Date.now()` difference yields. -/
structure OrchEnv where
  agentName : AgentName
  inputSummary : String
  callId : String
  timestamp : String
  durationMs : ℤ
  maxRetries : ℕ
  retryFnProvided : Bool
  skipQualityCheck : Bool
  agentFn : ℕ → AttemptOutcome
  retryFn : ℕ → String → AttemptOutcome

/-- Exit of the `for attempt in 0..maxRetries` loop: a successful return with
the data the success log is built from, or exhaustion falling through to the
failure log.  `corrections` counts the `state.totalCorrections++` executions,
`attempts` the loop iterations run, `agentCalls` the invocations of the
original unit of work. -/
inductive LoopOut
  | completed (outputStr : String) (quality : QualityEvaluation) (retryCount : ℕ)
      (correction : Option String) (corrections attempts agentCalls : ℕ)
  | exhausted (retryCount : ℕ) (correction lastErr : Option String)
      (corrections attempts agentCalls : ℕ)
deriving DecidableEq, Repr

/-- The retry loop of `orchestrate` (lines 249-314).  `fuel` is the number of
iterations still permitted (`maxRetries + 1 - attempt`); the recursion mirrors
the `continue` statements of the source. -/
def orchLoop (env : OrchEnv) (fuel : ℕ) (attempt agentCalls retryCalls retryCount : ℕ)
    (correction lastErr : Option String) (corrections : ℕ) : LoopOut :=
  match fuel with
  | 0 => LoopOut.exhausted retryCount correction lastErr corrections attempt agentCalls
  | fuel2 + 1 =>
    let useRetryFn : Bool := decide (attempt ≠ 0) && env.retryFnProvided
    let outcome : AttemptOutcome :=
      if attempt = 0 then env.agentFn agentCalls
      else if env.retryFnProvided then
        env.retryFn retryCalls (orString correction "Retry with improved parameters")
      else env.agentFn agentCalls
    let agentCalls2 : ℕ := if useRetryFn then agentCalls else agentCalls + 1
    let retryCalls2 : ℕ := if useRetryFn then retryCalls + 1 else retryCalls
    match outcome with
    | AttemptOutcome.ok outputStr q0 =>
      let quality := if env.skipQualityCheck then defaultQuality else q0
      if quality.hasCriticalIssue = true ∧ attempt < env.maxRetries ∧ env.retryFnProvided = true then
        orchLoop env fuel2 (attempt + 1) agentCalls2 retryCalls2 (retryCount + 1)
          (some (orString quality.suggestedFix "Retry with stricter validation"))
          lastErr (corrections + 1)
      else
        LoopOut.completed outputStr quality retryCount correction corrections
          (attempt + 1) agentCalls2
    | AttemptOutcome.err m =>
      if attempt < env.maxRetries then
        orchLoop env fuel2 (attempt + 1) agentCalls2 retryCalls2 (retryCount + 1)
          (some ("Auto-retry after error: " ++ m)) (some m) (corrections + 1)
      else
        LoopOut.exhausted retryCount correction (some m) corrections (attempt + 1) agentCalls2

/-- Result of one `orchestrate` invocation: whether it returned or threw, the
log it appended, the state it left behind, and the loop counters. -/
structure OrchResult where
  succeeded : Bool
  log : AgentCallLog
  finalState : OrchestratorState
  corrections : ℕ
  attempts : ℕ
  agentCalls : ℕ

/-- Function `orchestrate` (lines 217-339) on the orchestrator state.  The checklist
marking at entry touches only the separate checklist store, modelled below.
The loop mutates no orchestrator state except `totalCorrections`; both exits
then run the `recordCall` block exactly once. -/
def orchestrateModel (env : OrchEnv) (st0 : OrchestratorState) : OrchResult :=
  match orchLoop env (env.maxRetries + 1) 0 0 0 0 none none 0 with
  | LoopOut.completed outputStr quality retryCount correction corrections attempts agentCalls =>
    let log : AgentCallLog :=
      { id := env.callId
        agent := env.agentName
        timestamp := env.timestamp
        durationMs := env.durationMs
        success := true
        qualityScore := quality.score
        qualityReasoning := quality.reasoning
        retryCount := retryCount
        inputSummary := env.inputSummary.take 200
        outputSummary := outputStr.take 200
        correctionApplied := correction
        error := none }
    let stMid := { st0 with totalCorrections := st0.totalCorrections + corrections }
    { succeeded := true, log := log, finalState := recordCall stMid log
      corrections := corrections, attempts := attempts, agentCalls := agentCalls }
  | LoopOut.exhausted retryCount correction lastErr corrections attempts agentCalls =>
    let log : AgentCallLog :=
      { id := env.callId
        agent := env.agentName
        timestamp := env.timestamp
        durationMs := env.durationMs
        success := false
        qualityScore := 0
        qualityReasoning := "All " ++ toString (env.maxRetries + 1) ++ " attempts failed"
        retryCount := retryCount
        inputSummary := env.inputSummary.take 200
        outputSummary := ""
        correctionApplied := correction
        error := lastErr }
    let stMid := { st0 with totalCorrections := st0.totalCorrections + corrections }
    { succeeded := false, log := log, finalState := recordCall stMid log
      corrections := corrections, attempts := attempts, agentCalls := agentCalls }

-- ============================================================
-- agentBus.ts — types
-- ============================================================

/-- The closed enum of bus event types. -/
inductive BusEventType
  | visionExtracted | watchdogMatched | freedomUpdated | letterGenerated
  | callScriptGenerated | debateVerdict | coachInsight
deriving DecidableEq, Repr

/-- Event payloads: either opaque agent output, or the aggregate payload the
chain-summary event carries (`_chainSummary` object of `completeChain`). -/
inductive BusPayload
  | agentData (s : String)
  | chainAggregate (totalAgents : ℕ) (totalDurationMs : ℤ) (agentsFired : List AgentName)
deriving DecidableEq, Repr

/-- Record `BusEvent` of agentBus.ts. -/
structure BusEvent where
  id : String
  type : BusEventType
  source : AgentName
  chainId : String
  depth : ℤ
  timestamp : String
  summary : String
  payload : BusPayload
  durationMs : Option ℤ
  triggeredBy : Option String
deriving DecidableEq, Repr

inductive ChainStatus
  | running | completed | error
deriving DecidableEq, Repr

/-- Record `ChainSummary` of agentBus.ts. -/
structure ChainSummary where
  chainId : String
  events : List BusEvent
  totalAgents : ℕ
  totalDurationMs : ℤ
  startedAt : String
  completedAt : Option String
  status : ChainStatus
deriving DecidableEq, Repr

/-- The caller-supplied part of an event: `Omit<BusEvent, id | timestamp | type>`. -/
structure BusEventInput where
  source : AgentName
  chainId : String
  depth : ℤ
  summary : String
  payload : BusPayload
  durationMs : Option ℤ
  triggeredBy : Option String
deriving DecidableEq, Repr

/-- An SSE subscriber callback: identified by `sid`; `throws` records whether
invoking it raises (a disconnected client). -/
structure Subscriber where
  sid : ℕ
  throws : Bool
deriving DecidableEq, Repr

/-- State of the `AgentBus` singleton.  `handlerTypes` lists the event types
that have `EventEmitter` listeners registered (after `registerBusHandlers`,
all seven).  Two observation lists record the externally visible effects:
`delivered` logs every invocation of an SSE subscriber callback (pair of
subscriber id and event), `dispatched` logs every event handed to the
`EventEmitter` listeners — the downstream-trigger handlers. -/
structure AgentBusState where
  eventLog : List BusEvent
  chains : List (String × ChainSummary)
  sseClients : List Subscriber
  handlerTypes : List BusEventType
  delivered : List (ℕ × BusEvent)
  dispatched : List BusEvent
deriving DecidableEq, Repr

def MAX_CHAIN_DEPTH : ℤ := 3
def MAX_EVENT_LOG : ℕ := 200

namespace AgentBus

/-- Models `Map.set` on the chain map: replace the entry of the key or append a new one. -/
def upsertChain : List (String × ChainSummary) → String → ChainSummary →
    List (String × ChainSummary)
  | [], cid, c => [(cid, c)]
  | (k, v) :: tl, cid, c =>
    if k = cid then (k, c) :: tl else (k, v) :: upsertChain tl cid c

/-- Function `trackChain` (agentBus.ts lines 116-132): create the chain on its first
event, append the event, recompute the distinct-source count, add the
duration. -/
def trackChain (chains : List (String × ChainSummary)) (e : BusEvent) :
    List (String × ChainSummary) :=
  let base : ChainSummary :=
    match chains.lookup e.chainId with
    | some c => c
    | none =>
      { chainId := e.chainId
        events := []
        totalAgents := 0
        totalDurationMs := 0
        startedAt := e.timestamp
        completedAt := none
        status := ChainStatus.running }
  let evs := base.events ++ [e]
  let chain2 : ChainSummary :=
    { base with
      events := evs
      totalAgents := (evs.map (fun ev => ev.source)).dedup.length
      totalDurationMs := base.totalDurationMs + e.durationMs.getD 0 }
  upsertChain chains e.chainId chain2

/-- The subscriber fan-out loop `for (client of sseClients) try client(e)
catch { }`: every current callback is invoked (recorded in `delivered`), a
raised exception is swallowed, and the client set is left untouched. -/
def deliverAll (st : AgentBusState) (e : BusEvent) : AgentBusState :=
  { st with delivered := st.delivered ++ st.sseClients.map (fun c => (c.sid, e)) }

/-- Completion of the event record from the caller-supplied part (`fullEvent`
of `emit`); `eid` and `ts` stand for the generated id and timestamp. -/
def mkFullEvent (type : BusEventType) (input : BusEventInput) (eid ts : String) : BusEvent :=
  { id := eid
    type := type
    source := input.source
    chainId := input.chainId
    depth := input.depth
    timestamp := ts
    summary := input.summary
    payload := input.payload
    durationMs := input.durationMs
    triggeredBy := input.triggeredBy }

/-- Function `AgentBus.emit` (lines 84-114).  Depth above `MAX_CHAIN_DEPTH` is rejected
before anything happens.  Otherwise: bounded event-log append, chain tracking,
subscriber fan-out, then `super.emit` hands the event to the downstream
handlers; its boolean (were there listeners for the type) is returned. -/
def emit (st : AgentBusState) (type : BusEventType) (input : BusEventInput)
    (eid ts : String) : AgentBusState × Bool :=
  if MAX_CHAIN_DEPTH < input.depth then (st, false)
  else
    let fullEvent := mkFullEvent type input eid ts
    let st1 := { st with eventLog := boundedPush MAX_EVENT_LOG st.eventLog fullEvent }
    let st2 := { st1 with chains := trackChain st1.chains fullEvent }
    let st3 := deliverAll st2 fullEvent
    let st4 := { st3 with dispatched := st3.dispatched ++ [fullEvent] }
    (st4, st.handlerTypes.contains type)

/-- Models `(ms / 1000).toFixed(1)` for the nonnegative durations that occur: tenths
of seconds, rounded half up. -/
def toFixed1 (ms : ℤ) : String :=
  let tenths : ℤ := (ms + 50) / 100
  toString (tenths / 10) ++ "." ++ toString (tenths % 10)

/-- The synthesized chain-summary event of `completeChain`: depth -1 sentinel,
reused `freedom:updated` type, aggregate payload. -/
def chainSummaryEvent (chainId eid ts : String) (chain2 : ChainSummary) : BusEvent :=
  { id := eid
    type := BusEventType.freedomUpdated
    source := AgentName.freedom
    chainId := chainId
    depth := -1
    timestamp := ts
    summary := "Chain complete: " ++ toString chain2.totalAgents ++ " agents, "
      ++ toFixed1 chain2.totalDurationMs ++ "s"
    payload := BusPayload.chainAggregate chain2.totalAgents chain2.totalDurationMs
      (chain2.events.map (fun e => e.source))
    durationMs := none
    triggeredBy := none }

/-- Mutations `chain.status = completed; chain.completedAt = now` — the two updates
`completeChain` applies to the found chain record. -/
def markCompleted (chain : ChainSummary) (ts : String) : ChainSummary :=
  { chain with status := ChainStatus.completed, completedAt := some ts }

/-- Function `AgentBus.completeChain` (lines 137-163): when the chain exists, mark it
completed, stamp the time, and broadcast one summary event to the current SSE
subscribers only — the trigger handlers are not re-entered.  There is no
guard against a chain that is already completed. -/
def completeChain (st : AgentBusState) (chainId : String) (eid ts : String) : AgentBusState :=
  match st.chains.lookup chainId with
  | none => st
  | some chain =>
    let chain2 := markCompleted chain ts
    deliverAll { st with chains := upsertChain st.chains chainId chain2 }
      (chainSummaryEvent chainId eid ts chain2)

/-- Function `subscribe`: `sseClients.add(callback)`; iteration order of a JS `Set` is
insertion order. -/
def subscribe (st : AgentBusState) (c : Subscriber) : AgentBusState :=
  { st with sseClients := st.sseClients ++ [c] }

/-- The unsubscribe closure returned by `subscribe`: `sseClients.delete(callback)`. -/
def unsubscribe (st : AgentBusState) (c : Subscriber) : AgentBusState :=
  { st with sseClients := st.sseClients.filter (fun x => x ≠ c) }

/-- Accessor `getRecentEvents`. -/
def getRecentEvents (st : AgentBusState) (limit : ℕ) : List BusEvent :=
  st.eventLog.drop (st.eventLog.length - limit)

end AgentBus

/-- One externally invokable bus operation. -/
inductive BusOp
  | emitOp (type : BusEventType) (input : BusEventInput) (eid ts : String)
  | completeChainOp (chainId eid ts : String)
  | subscribeOp (c : Subscriber)
  | unsubscribeOp (c : Subscriber)

def busStep (st : AgentBusState) : BusOp → AgentBusState
  | BusOp.emitOp t i eid ts => (AgentBus.emit st t i eid ts).1
  | BusOp.completeChainOp cid eid ts => AgentBus.completeChain st cid eid ts
  | BusOp.subscribeOp c => AgentBus.subscribe st c
  | BusOp.unsubscribeOp c => AgentBus.unsubscribe st c

def runBus (st : AgentBusState) (ops : List BusOp) : AgentBusState :=
  ops.foldl busStep st

/-- Bus state after module load: `registerBusHandlers` has registered
listeners for all seven event types. -/
def initBus : AgentBusState :=
  { eventLog := []
    chains := []
    sseClients := []
    handlerTypes :=
      [BusEventType.visionExtracted, BusEventType.watchdogMatched,
       BusEventType.debateVerdict, BusEventType.freedomUpdated,
       BusEventType.letterGenerated, BusEventType.callScriptGenerated,
       BusEventType.coachInsight]
    delivered := []
    dispatched := [] }

/-- Number of chain-summary deliveries (depth -1, given chain) a subscriber id
has received. -/
def summaryDeliveriesTo (sid : ℕ) (cid : String) (st : AgentBusState) : ℕ :=
  (st.delivered.filter
    (fun p => p.1 == sid && p.2.depth == (-1 : ℤ) && p.2.chainId == cid)).length

-- ============================================================
-- orchestrator.ts — checklist subsystem
-- ============================================================

inductive ItemStatus
  | pending | inProgress | completed | failed
deriving DecidableEq, Repr

/-- Record `ChecklistItem` of orchestrator.ts. -/
structure ChecklistItem where
  id : String
  task : String
  description : String
  assignedAgent : AgentName
  status : ItemStatus
  progress : ℤ
  result : Option String
  decision : Option String
  startedAt : Option String
  completedAt : Option String
deriving DecidableEq, Repr

/-- The `AGENT_TO_CHECKLIST` alias table of `registerBusHandlers` (lines
620-628): seven sources map to themselves; `simulator`, `auditor` and
`future-self` have no entry. -/
def AGENT_TO_CHECKLIST : AgentName → Option AgentName
  | AgentName.vision => some AgentName.vision
  | AgentName.watchdog => some AgentName.watchdog
  | AgentName.debate => some AgentName.debate
  | AgentName.letter => some AgentName.letter
  | AgentName.callScript => some AgentName.callScript
  | AgentName.freedom => some AgentName.freedom
  | AgentName.coach => some AgentName.coach
  | _ => none

/-- The `updateChecklistItem` mutation the bus handler applies: status
completed, progress 100, the event's summary as result, completion time. -/
def completeItemWith (item : ChecklistItem) (summary now : String) : ChecklistItem :=
  { item with
    status := ItemStatus.completed
    progress := 100
    result := some summary
    completedAt := some now }

/-- Effect of the checklist bus handler (lines 635-654) on one item: when the
event's source has an alias-table entry matching the item's assigned agent and
the item is not yet completed, `updateChecklistItem` marks it completed with
progress 100, the event's summary as result, and the current time `now` as
completion time; otherwise the item is untouched.  The handler is registered
for every one of the seven event types, so every dispatched event runs it. -/
def checklistBusStep (e : BusEvent) (now : String) (item : ChecklistItem) : ChecklistItem :=
  match AGENT_TO_CHECKLIST e.source with
  | none => item
  | some name =>
    if item.assignedAgent = name ∧ item.status ≠ ItemStatus.completed then
      completeItemWith item e.summary now
    else item

/-- The handler's outer loops: it walks every session and every item of the
session's checklist. -/
def checklistsStep (e : BusEvent) (now : String)
    (cls : List (String × List ChecklistItem)) : List (String × List ChecklistItem) :=
  cls.map (fun p => (p.1, p.2.map (checklistBusStep e now)))

/-- Folding a sequence of dispatched events (each with the wall-clock instant
its handler runs at) over one item. -/
def runChecklist (item : ChecklistItem) (evs : List (BusEvent × String)) : ChecklistItem :=
  evs.foldl (fun it p => checklistBusStep p.1 p.2 it) item

-- ============================================================
-- Concrete sample inputs used by witnesses and counterexamples
-- ============================================================

/-- A single successful call for `freedom` (quality 80, 10 ms). -/
def c2Log : AgentCallLog :=
  { id := "call_1", agent := AgentName.freedom, timestamp := "t_1", durationMs := 10,
    success := true, qualityScore := 80, qualityReasoning := "ok", retryCount := 0,
    inputSummary := "in", outputSummary := "out", correctionApplied := none, error := none }

/-- Successful `freedom` call with a given quality score and duration. -/
def mkFreedomLog (cid : String) (q d : ℤ) : AgentCallLog :=
  { id := cid, agent := AgentName.freedom, timestamp := "t_m", durationMs := d,
    success := true, qualityScore := q, qualityReasoning := "r", retryCount := 0,
    inputSummary := "i", outputSummary := "o", correctionApplied := none, error := none }

def c3Logs : List AgentCallLog :=
  [mkFreedomLog "call_a" 1 1, mkFreedomLog "call_b" 0 0, mkFreedomLog "call_c" 0 0]

def c1DeepInput : BusEventInput :=
  { source := AgentName.vision, chainId := "chain_0", depth := 4, summary := "too deep",
    payload := BusPayload.agentData "p", durationMs := none, triggeredBy := none }

def c1OkInput : BusEventInput :=
  { source := AgentName.vision, chainId := "chain_0", depth := 0, summary := "extracted",
    payload := BusPayload.agentData "p", durationMs := some 10, triggeredBy := none }

def c1OkEvent : BusEvent := AgentBus.mkFullEvent BusEventType.visionExtracted c1OkInput "evt_1" "t_1"

def c4Sub : Subscriber := { sid := 0, throws := false }

def c4Input : BusEventInput :=
  { source := AgentName.vision, chainId := "chain_1", depth := 0, summary := "extracted",
    payload := BusPayload.agentData "docs", durationMs := some 1200, triggeredBy := none }

/-- Bus after one subscriber and one accepted event on chain_1. -/
def c4State : AgentBusState :=
  (AgentBus.emit (AgentBus.subscribe initBus c4Sub) BusEventType.visionExtracted
    c4Input "evt_1" "t_1").1

/-- State after `completeChain` is called twice on the same chain. -/
def c4Final : AgentBusState :=
  AgentBus.completeChain (AgentBus.completeChain c4State "chain_1" "evt_2" "t_2")
    "chain_1" "evt_3" "t_3"

def c4BaseChain : ChainSummary :=
  { chainId := "chain_1", events := [], totalAgents := 0, totalDurationMs := 0,
    startedAt := "t_0", completedAt := none, status := ChainStatus.running }

def c4Base : AgentBusState :=
  { initBus with chains := [("chain_1", c4BaseChain)], sseClients := [c4Sub] }

def c5Thrower : Subscriber := { sid := 7, throws := true }
def c5Other : Subscriber := { sid := 8, throws := false }

def c5Bus : AgentBusState := AgentBus.subscribe (AgentBus.subscribe initBus c5Thrower) c5Other

def c5Input : BusEventInput :=
  { source := AgentName.watchdog, chainId := "chain_5", depth := 0, summary := "matched",
    payload := BusPayload.agentData "offers", durationMs := none, triggeredBy := none }

def c5After : AgentBusState :=
  (AgentBus.emit c5Bus BusEventType.watchdogMatched c5Input "evt_a" "t_a").1

def c5After2 : AgentBusState :=
  (AgentBus.emit c5After BusEventType.watchdogMatched c5Input "evt_b" "t_b").1

def c7Quality : QualityEvaluation :=
  { score := 70, reasoning := "fine", hasCriticalIssue := false, suggestedFix := none }

/-- Environment with `maxRetries = 1`, no retry-variant, unit of work that throws once then succeeds. -/
def c7Env : OrchEnv :=
  { agentName := AgentName.freedom, inputSummary := "calc path", callId := "call_7",
    timestamp := "t_7", durationMs := 42, maxRetries := 1, retryFnProvided := false,
    skipQualityCheck := false,
    agentFn := fun k => if k = 0 then AttemptOutcome.err "boom"
      else AttemptOutcome.ok "path" c7Quality,
    retryFn := fun _ _ => AttemptOutcome.err "unused" }

def c8Quality : QualityEvaluation :=
  { score := 90, reasoning := "good", hasCriticalIssue := false, suggestedFix := none }

def c8Env : OrchEnv :=
  { agentName := AgentName.freedom, inputSummary := "run", callId := "call_8",
    timestamp := "t_8", durationMs := 5, maxRetries := 0, retryFnProvided := false,
    skipQualityCheck := true,
    agentFn := fun _ => AttemptOutcome.ok "done" c8Quality,
    retryFn := fun _ _ => AttemptOutcome.err "unused" }

/-- A checklist item assigned to `simulator` — an agent absent from the alias table. -/
def c9SimItem : ChecklistItem :=
  { id := "task_1", task := "simulate", description := "d",
    assignedAgent := AgentName.simulator, status := ItemStatus.pending, progress := 0,
    result := none, decision := none, startedAt := none, completedAt := none }

def c9SimEvent : BusEvent :=
  { id := "evt_s", type := BusEventType.coachInsight, source := AgentName.simulator,
    chainId := "chain_9", depth := 0, timestamp := "t_s", summary := "sim done",
    payload := BusPayload.agentData "x", durationMs := none, triggeredBy := none }

def c9Item : ChecklistItem :=
  { id := "task_2", task := "find grants", description := "d",
    assignedAgent := AgentName.watchdog, status := ItemStatus.pending, progress := 0,
    result := none, decision := none, startedAt := none, completedAt := none }

def c9PreEvent : BusEvent :=
  { id := "evt_p", type := BusEventType.visionExtracted, source := AgentName.vision,
    chainId := "chain_9", depth := 0, timestamp := "t_p", summary := "extracted",
    payload := BusPayload.agentData "v", durationMs := none, triggeredBy := none }

def c9Event : BusEvent :=
  { id := "evt_w", type := BusEventType.watchdogMatched, source := AgentName.watchdog,
    chainId := "chain_9", depth := 1, timestamp := "t_w", summary := "matched 3 grants",
    payload := BusPayload.agentData "w", durationMs := some 5, triggeredBy := some "evt_p" }

def c9LaterEvent : BusEvent :=
  { id := "evt_w2", type := BusEventType.watchdogMatched, source := AgentName.watchdog,
    chainId := "chain_9", depth := 2, timestamp := "t_w2", summary := "matched again",
    payload := BusPayload.agentData "w2", durationMs := some 6, triggeredBy := some "evt_w" }

-- ============================================================
-- Helper lemmas
-- ============================================================

theorem recordCall_totalCorrections (st : OrchestratorState) (l : AgentCallLog) :
    (recordCall st l).totalCorrections = st.totalCorrections := rfl

theorem recordCall_totalCalls (st : OrchestratorState) (l : AgentCallLog) :
    (recordCall st l).totalCalls = st.totalCalls + 1 := rfl

theorem recordCall_callLog (st : OrchestratorState) (l : AgentCallLog) :
    (recordCall st l).callLog = boundedPush MAX_LOG_SIZE st.callLog l := rfl

theorem recordCall_agents_self (st : OrchestratorState) (l : AgentCallLog) :
    (recordCall st l).agents l.agent
      = updateHealthRecord (st.agents l.agent) (boundedPush MAX_LOG_SIZE st.callLog l)
          l l.agent := by
  simp [recordCall, updateHealth]

theorem recordCall_agents_other (st : OrchestratorState) (l : AgentCallLog)
    (b : AgentName) (hb : b ≠ l.agent) :
    (recordCall st l).agents b = st.agents b := by
  simp [recordCall, updateHealth, hb]

theorem updateHealthRecord_totalCalls (h : AgentHealth) (fl : List AgentCallLog)
    (l : AgentCallLog) (a : AgentName) :
    (updateHealthRecord h fl l a).totalCalls = h.totalCalls + 1 := rfl

theorem updateHealthRecord_avgQualityScore (h : AgentHealth) (fl : List AgentCallLog)
    (l : AgentCallLog) (a : AgentName) :
    (updateHealthRecord h fl l a).avgQualityScore
      = if h.totalCalls = 0 then l.qualityScore
        else jsRoundRatio (h.avgQualityScore * (h.totalCalls : ℤ) + l.qualityScore)
          ((h.totalCalls : ℤ) + 1) := by
  simp only [updateHealthRecord]
  by_cases h0 : h.totalCalls = 0 <;> simp [h0]

theorem updateHealthRecord_avgLatencyMs (h : AgentHealth) (fl : List AgentCallLog)
    (l : AgentCallLog) (a : AgentName) :
    (updateHealthRecord h fl l a).avgLatencyMs
      = if h.totalCalls = 0 then l.durationMs
        else jsRoundRatio (h.avgLatencyMs * (h.totalCalls : ℤ) + l.durationMs)
          ((h.totalCalls : ℤ) + 1) := by
  simp only [updateHealthRecord]
  by_cases h0 : h.totalCalls = 0 <;> simp [h0]

-- ============================================================
-- C10
-- ============================================================

/-- Claim C10: before its first orchestrated call, every agent's health record,
as exposed by `getAgentHealthMap` and `getOrchestratorState`, reports
totalCalls = 0, successRate = 100, avgQualityScore = 0, lastCallAt = null and
status healthy — a never-called agent is reported healthy with a 100% success
rate despite an average quality score of 0. -/
theorem C10_initial_health (a : AgentName) :
    (getAgentHealthMap initState a).totalCalls = 0 ∧
    (getAgentHealthMap initState a).successRate = 100 ∧
    (getAgentHealthMap initState a).avgQualityScore = 0 ∧
    (getAgentHealthMap initState a).lastCallAt = none ∧
    (getAgentHealthMap initState a).status = HealthStatus.healthy ∧
    (getOrchestratorState initState).agents a = createEmptyHealth a := by
  cases a <;> exact ⟨rfl, rfl, rfl, rfl, rfl, rfl⟩

/-- Witness for C10 at a concrete agent. -/
theorem C10_initial_health_witness :
    (getAgentHealthMap initState AgentName.freedom).totalCalls = 0 ∧
    (getAgentHealthMap initState AgentName.freedom).successRate = 100 ∧
    (getAgentHealthMap initState AgentName.freedom).avgQualityScore = 0 ∧
    (getAgentHealthMap initState AgentName.freedom).lastCallAt = none ∧
    (getAgentHealthMap initState AgentName.freedom).status = HealthStatus.healthy ∧
    (getOrchestratorState initState).agents AgentName.freedom
      = createEmptyHealth AgentName.freedom :=
  C10_initial_health AgentName.freedom

-- ============================================================
-- C2
-- ============================================================

/-- Claim C2 is refuted by the code (code bug): after a single completed,
successful `orchestrate` call for `freedom` (N = 1, k = 1) the stored
successRate is 200, not round(100*1/1) = 100.  The call sites push the log
into `state.callLog` before `updateHealth` runs, and `updateHealth` then both
counts the pushed log in its filter and adds 1 for the same call again —
contradicting the source's own `successRate: number; // 0-100` documentation. -/
theorem C2_successRate_double_count :
    ((recordCall initState c2Log).agents AgentName.freedom).totalCalls = 1 ∧
    ((recordCall initState c2Log).agents AgentName.freedom).successRate = 200 ∧
    jsRoundRatio (100 * 1) 1 = 100 := by
  refine ⟨by decide, by decide, by decide⟩

-- ============================================================
-- C6
-- ============================================================

/-- Claim C6: after any health update, the derived status is `failing` exactly
when successRate < 50 or avgQualityScore < 40; `degraded` exactly when not
failing and (successRate < 80 or avgQualityScore < 60); otherwise `healthy` —
boundary values included. -/
theorem C6_status_thresholds (st : OrchestratorState) (log : AgentCallLog) :
    (((recordCall st log).agents log.agent).status = HealthStatus.failing ↔
      (((recordCall st log).agents log.agent).successRate < 50 ∨
       ((recordCall st log).agents log.agent).avgQualityScore < 40)) ∧
    (((recordCall st log).agents log.agent).status = HealthStatus.degraded ↔
      (¬(((recordCall st log).agents log.agent).successRate < 50 ∨
         ((recordCall st log).agents log.agent).avgQualityScore < 40) ∧
       (((recordCall st log).agents log.agent).successRate < 80 ∨
        ((recordCall st log).agents log.agent).avgQualityScore < 60))) ∧
    (((recordCall st log).agents log.agent).status = HealthStatus.healthy ↔
      (¬(((recordCall st log).agents log.agent).successRate < 50 ∨
         ((recordCall st log).agents log.agent).avgQualityScore < 40) ∧
       ¬(((recordCall st log).agents log.agent).successRate < 80 ∨
         ((recordCall st log).agents log.agent).avgQualityScore < 60))) := by
  rw [recordCall_agents_self]
  simp only [updateHealthRecord]
  split_ifs with h1 h2 <;> simp_all

/-- Witness for C6 at a concrete input. -/
theorem C6_status_thresholds_witness :
    (((recordCall initState c2Log).agents c2Log.agent).status = HealthStatus.failing ↔
      (((recordCall initState c2Log).agents c2Log.agent).successRate < 50 ∨
       ((recordCall initState c2Log).agents c2Log.agent).avgQualityScore < 40)) ∧
    (((recordCall initState c2Log).agents c2Log.agent).status = HealthStatus.degraded ↔
      (¬(((recordCall initState c2Log).agents c2Log.agent).successRate < 50 ∨
         ((recordCall initState c2Log).agents c2Log.agent).avgQualityScore < 40) ∧
       (((recordCall initState c2Log).agents c2Log.agent).successRate < 80 ∨
        ((recordCall initState c2Log).agents c2Log.agent).avgQualityScore < 60))) ∧
    (((recordCall initState c2Log).agents c2Log.agent).status = HealthStatus.healthy ↔
      (¬(((recordCall initState c2Log).agents c2Log.agent).successRate < 50 ∨
         ((recordCall initState c2Log).agents c2Log.agent).avgQualityScore < 40) ∧
       ¬(((recordCall initState c2Log).agents c2Log.agent).successRate < 80 ∨
         ((recordCall initState c2Log).agents c2Log.agent).avgQualityScore < 60))) :=
  C6_status_thresholds initState c2Log

-- ============================================================
-- C3
-- ============================================================

/-- Claim C3 is refuted: after successful `freedom` calls with quality scores
1, 0, 0, the stored avgQualityScore is 1; the exact arithmetic mean is 1/3
(so 3·avg ≠ sum), and even rounding the exact mean would give 0. -/
theorem C3_not_exact_mean :
    3 * ((c3Logs.foldl recordCall initState).agents AgentName.freedom).avgQualityScore
        ≠ (mkFreedomLog "call_a" 1 1).qualityScore + (mkFreedomLog "call_b" 0 0).qualityScore
          + (mkFreedomLog "call_c" 0 0).qualityScore ∧
    ((c3Logs.foldl recordCall initState).agents AgentName.freedom).avgQualityScore
        ≠ jsRoundRatio ((mkFreedomLog "call_a" 1 1).qualityScore
            + (mkFreedomLog "call_b" 0 0).qualityScore
            + (mkFreedomLog "call_c" 0 0).qualityScore) 3 := by
  refine ⟨by decide, by decide⟩

theorem foldl_recordCall_avg (a : AgentName) :
    ∀ (logs : List AgentCallLog) (st : OrchestratorState),
      (∀ l ∈ logs, l.agent = a) →
      ((logs.foldl recordCall st).agents a).avgQualityScore
        = rollingAvgAux ((st.agents a).avgQualityScore) ((st.agents a).totalCalls)
            (logs.map (fun l => l.qualityScore)) ∧
      ((logs.foldl recordCall st).agents a).avgLatencyMs
        = rollingAvgAux ((st.agents a).avgLatencyMs) ((st.agents a).totalCalls)
            (logs.map (fun l => l.durationMs)) := by
  intro logs
  induction logs with
  | nil => intro st _; exact ⟨rfl, rfl⟩
  | cons l ls ih =>
    intro st hA
    have hl : l.agent = a := hA l (List.mem_cons_self l ls)
    have hls : ∀ x ∈ ls, x.agent = a := fun x hx => hA x (List.mem_cons_of_mem l hx)
    have hstep : (recordCall st l).agents a
        = updateHealthRecord (st.agents a) (boundedPush MAX_LOG_SIZE st.callLog l) l a := by
      rw [← hl, recordCall_agents_self]
    have := ih (recordCall st l) hls
    rw [List.foldl_cons]
    rcases this with ⟨hq, hd⟩
    rw [hq, hd, hstep, updateHealthRecord_totalCalls,
      updateHealthRecord_avgQualityScore, updateHealthRecord_avgLatencyMs]
    constructor <;> simp [rollingAvgAux]

/-- Claim C3, amended: for any sequence of completed calls all belonging to one
agent, the stored avgQualityScore and avgLatencyMs equal the per-step-rounded
rolling average of the per-call values (first value exact, then
round((old*(n-1)+new)/n) at each step) — not, in general, the exact
arithmetic mean. -/
theorem C3_rolling_rounded_average (a : AgentName) (logs : List AgentCallLog)
    (hA : ∀ l ∈ logs, l.agent = a) :
    ((logs.foldl recordCall initState).agents a).avgQualityScore
      = rollingAvg (logs.map (fun l => l.qualityScore)) ∧
    ((logs.foldl recordCall initState).agents a).avgLatencyMs
      = rollingAvg (logs.map (fun l => l.durationMs)) := by
  have h := foldl_recordCall_avg a logs initState hA
  simpa [rollingAvg, initState, createEmptyHealth] using h

/-- Witness for the amended C3 at the concrete counterexample inputs. -/
theorem C3_rolling_rounded_average_witness :
    ((c3Logs.foldl recordCall initState).agents AgentName.freedom).avgQualityScore
      = rollingAvg (c3Logs.map (fun l => l.qualityScore)) ∧
    ((c3Logs.foldl recordCall initState).agents AgentName.freedom).avgLatencyMs
      = rollingAvg (c3Logs.map (fun l => l.durationMs)) :=
  C3_rolling_rounded_average AgentName.freedom c3Logs (by decide)

-- ============================================================
-- Bus helper lemmas
-- ============================================================

theorem lookup_upsertChain_self (chains : List (String × ChainSummary))
    (cid : String) (c : ChainSummary) :
    (AgentBus.upsertChain chains cid c).lookup cid = some c := by
  induction chains with
  | nil => simp [AgentBus.upsertChain, List.lookup_cons]
  | cons hd tl ih =>
    obtain ⟨k, v⟩ := hd
    by_cases hk : k = cid
    · subst hk
      simp [AgentBus.upsertChain, List.lookup_cons]
    · simp [AgentBus.upsertChain, hk, List.lookup_cons, beq_false_of_ne (Ne.symm hk), ih]

theorem deliverAll_sseClients (st : AgentBusState) (e : BusEvent) :
    (AgentBus.deliverAll st e).sseClients = st.sseClients := rfl

theorem deliverAll_chains (st : AgentBusState) (e : BusEvent) :
    (AgentBus.deliverAll st e).chains = st.chains := rfl

theorem deliverAll_dispatched (st : AgentBusState) (e : BusEvent) :
    (AgentBus.deliverAll st e).dispatched = st.dispatched := rfl

theorem completeChain_found (st : AgentBusState) (cid eid ts : String)
    (chain : ChainSummary) (h : st.chains.lookup cid = some chain) :
    AgentBus.completeChain st cid eid ts
      = AgentBus.deliverAll
          { st with chains := AgentBus.upsertChain st.chains cid (AgentBus.markCompleted chain ts) }
          (AgentBus.chainSummaryEvent cid eid ts (AgentBus.markCompleted chain ts)) := by
  simp only [AgentBus.completeChain, h]

theorem summaryDeliveriesTo_deliverAll (st : AgentBusState) (ev : BusEvent)
    (sid : ℕ) (cid : String) (hd : ev.depth = -1) (hc : ev.chainId = cid) :
    summaryDeliveriesTo sid cid (AgentBus.deliverAll st ev)
      = summaryDeliveriesTo sid cid st
        + st.sseClients.countP (fun c => c.sid == sid) := by
  simp only [summaryDeliveriesTo, AgentBus.deliverAll, List.filter_append,
    List.length_append, List.filter_map]
  congr 1
  rw [List.length_map, ← List.countP_eq_length_filter]
  apply List.countP_congr
  intro c _
  simp [Function.comp, hd, hc]

/-- Every bus operation preserves the bound `depth ≤ 3` on dispatched events. -/
theorem busStep_dispatched_bound (st : AgentBusState) (op : BusOp)
    (h : ∀ e ∈ st.dispatched, e.depth ≤ 3) :
    ∀ e ∈ (busStep st op).dispatched, e.depth ≤ 3 := by
  cases op with
  | emitOp t i eid ts =>
    by_cases hd : MAX_CHAIN_DEPTH < i.depth
    · simpa [busStep, AgentBus.emit, hd] using h
    · intro e he
      have he2 : e ∈ st.dispatched ++ [AgentBus.mkFullEvent t i eid ts] := by
        simpa [busStep, AgentBus.emit, hd, AgentBus.deliverAll] using he
      rcases List.mem_append.mp he2 with h1 | h1
      · exact h e h1
      · have he3 : e = AgentBus.mkFullEvent t i eid ts := by simpa using h1
        subst he3
        simp only [AgentBus.mkFullEvent, MAX_CHAIN_DEPTH] at hd ⊢
        omega
  | completeChainOp cid eid ts =>
    cases hc : st.chains.lookup cid with
    | none => simpa [busStep, AgentBus.completeChain, hc] using h
    | some chain => simpa [busStep, AgentBus.completeChain, hc, AgentBus.deliverAll] using h
  | subscribeOp c => simpa [busStep, AgentBus.subscribe] using h
  | unsubscribeOp c => simpa [busStep, AgentBus.unsubscribe] using h

theorem runBus_dispatched_bound (ops : List BusOp) :
    ∀ (st : AgentBusState), (∀ e ∈ st.dispatched, e.depth ≤ 3) →
      ∀ e ∈ (runBus st ops).dispatched, e.depth ≤ 3 := by
  induction ops with
  | nil => intro st h; simpa [runBus] using h
  | cons op ops ih =>
    intro st h
    have h2 := busStep_dispatched_bound st op h
    simpa [runBus] using ih (busStep st op) h2

-- ============================================================
-- C1
-- ============================================================

/-- Claim C1: emitting an event whose depth exceeds 3 returns false and leaves
the bus untouched — nothing is appended to the event log, no ChainSummary is
created or mutated, nothing is delivered to subscribers and nothing is
dispatched to the downstream-trigger handlers; consequently, along any
sequence of bus operations from the initial state, no event with depth > 3 is
ever dispatched to the downstream-trigger handlers. -/
theorem C1_emit_depth_guard :
    (∀ (st : AgentBusState) (t : BusEventType) (i : BusEventInput) (eid ts : String),
      3 < i.depth → AgentBus.emit st t i eid ts = (st, false)) ∧
    (∀ (ops : List BusOp) (e : BusEvent),
      e ∈ (runBus initBus ops).dispatched → e.depth ≤ 3) := by
  constructor
  · intro st t i eid ts hd
    simp [AgentBus.emit, MAX_CHAIN_DEPTH, hd]
  · intro ops e he
    exact runBus_dispatched_bound ops initBus (by simp [initBus]) e he

/-- Witness for C1 at concrete inputs: a depth-4 emission is a rejected no-op, and the
event dispatched by a depth-0 emission is within the bound. -/
theorem C1_emit_depth_guard_witness :
    AgentBus.emit initBus BusEventType.visionExtracted c1DeepInput "evt_9" "t_9"
      = (initBus, false) ∧
    c1OkEvent.depth ≤ 3 :=
  ⟨C1_emit_depth_guard.1 initBus BusEventType.visionExtracted c1DeepInput "evt_9" "t_9"
      (by decide),
   C1_emit_depth_guard.2
      [BusOp.emitOp BusEventType.visionExtracted c1OkInput "evt_1" "t_1"] c1OkEvent
      (by decide)⟩

-- ============================================================
-- C4
-- ============================================================

/-- One `completeChain` call on an existing chain: one summary delivery per
subscriber, the chain re-marked completed, the client set untouched. -/
theorem completeChain_summary_count (st : AgentBusState) (cid e t : String)
    (chain : ChainSummary) (sid : ℕ)
    (hchain : st.chains.lookup cid = some chain) :
    summaryDeliveriesTo sid cid (AgentBus.completeChain st cid e t)
      = summaryDeliveriesTo sid cid st + st.sseClients.countP (fun c => c.sid == sid) ∧
    (AgentBus.completeChain st cid e t).chains.lookup cid
      = some (AgentBus.markCompleted chain t) ∧
    (AgentBus.completeChain st cid e t).sseClients = st.sseClients := by
  rw [completeChain_found st cid e t chain hchain]
  refine ⟨?_, ?_, rfl⟩
  · exact summaryDeliveriesTo_deliverAll
      { st with chains := AgentBus.upsertChain st.chains cid (AgentBus.markCompleted chain t) }
      (AgentBus.chainSummaryEvent cid e t (AgentBus.markCompleted chain t)) sid cid rfl rfl
  · rw [deliverAll_chains]
    exact lookup_upsertChain_self st.chains cid (AgentBus.markCompleted chain t)

/-- Claim C4 is refuted: with one subscriber registered before the chain's
single event, calling `completeChain` twice on the same chain id delivers the
depth −1 chain-summary event to that subscriber twice, not once — there is no
already-completed guard. -/
theorem C4_duplicate_summary :
    summaryDeliveriesTo c4Sub.sid "chain_1" c4Final = 2 := by decide

/-- Claim C4, amended: `completeChain` on an existing chain delivers exactly
one depth −1 summary event to each registered subscriber per call — so two
calls deliver the summary twice — while the chain's status is idempotently
`completed` (with the latest completion timestamp). -/
theorem C4_completeChain_delivers_per_call (st : AgentBusState) (cid : String)
    (sub : Subscriber) (e1 t1 e2 t2 : String) (chain : ChainSummary)
    (hchain : st.chains.lookup cid = some chain)
    (hsub : st.sseClients.countP (fun c => c.sid == sub.sid) = 1) :
    summaryDeliveriesTo sub.sid cid
        (AgentBus.completeChain (AgentBus.completeChain st cid e1 t1) cid e2 t2)
      = summaryDeliveriesTo sub.sid cid st + 2 ∧
    (AgentBus.completeChain (AgentBus.completeChain st cid e1 t1) cid e2 t2).chains.lookup cid
      = some (AgentBus.markCompleted chain t2) := by
  obtain ⟨hc1, hl1, hs1⟩ :=
    completeChain_summary_count st cid e1 t1 chain sub.sid hchain
  obtain ⟨hc2, hl2, hs2⟩ :=
    completeChain_summary_count (AgentBus.completeChain st cid e1 t1) cid e2 t2
      (AgentBus.markCompleted chain t1) sub.sid hl1
  constructor
  · rw [hc2, hs1, hc1, hsub]
  · exact hl2

/-- Witness for the amended C4 at a concrete bus state. -/
theorem C4_completeChain_delivers_per_call_witness :
    summaryDeliveriesTo c4Sub.sid "chain_1"
        (AgentBus.completeChain (AgentBus.completeChain c4Base "chain_1" "evt_x" "t_x")
          "chain_1" "evt_y" "t_y")
      = summaryDeliveriesTo c4Sub.sid "chain_1" c4Base + 2 ∧
    (AgentBus.completeChain (AgentBus.completeChain c4Base "chain_1" "evt_x" "t_x")
        "chain_1" "evt_y" "t_y").chains.lookup "chain_1"
      = some (AgentBus.markCompleted c4BaseChain "t_y") :=
  C4_completeChain_delivers_per_call c4Base "chain_1" c4Sub "evt_x" "t_x" "evt_y" "t_y"
    c4BaseChain (by decide) (by decide)

-- ============================================================
-- C5
-- ============================================================

/-- Claim C5 is refuted: a subscriber whose callback throws during delivery is
NOT removed from the subscriber set — after an emit that reaches it, the
client set is unchanged, the thrower is still registered, and a later emit
invokes it again. -/
theorem C5_thrower_not_removed :
    c5After.sseClients = c5Bus.sseClients ∧
    c5Thrower ∈ c5After.sseClients ∧
    c5After2.delivered.countP (fun p => p.1 == c5Thrower.sid) = 2 := by
  refine ⟨by decide, by decide, by decide⟩

/-- Claim C5, amended: a subscriber callback that throws during delivery has
its exception caught and swallowed; it stays in the subscriber set (and so
keeps receiving later events).  Its failure affects neither delivery to the
other subscribers — every currently registered subscriber is invoked with the
event, in registration order — nor the emitting call, whose state change and
return value do not depend on any subscriber's throw flag. -/
theorem C5_throw_swallowed_emit_unaffected (st : AgentBusState) (t : BusEventType)
    (i : BusEventInput) (eid ts : String) (hd : i.depth ≤ 3) :
    ((AgentBus.emit st t i eid ts).1).sseClients = st.sseClients ∧
    ((AgentBus.emit st t i eid ts).1).delivered
      = st.delivered
        ++ st.sseClients.map (fun c => (c.sid, AgentBus.mkFullEvent t i eid ts)) ∧
    (AgentBus.emit st t i eid ts).2 = st.handlerTypes.contains t := by
  have hnd : ¬ MAX_CHAIN_DEPTH < i.depth := by
    simp only [MAX_CHAIN_DEPTH]
    omega
  refine ⟨?_, ?_, ?_⟩ <;> simp [AgentBus.emit, hnd, AgentBus.deliverAll]

/-- Witness for the amended C5 at a concrete bus state containing a throwing subscriber. -/
theorem C5_throw_swallowed_emit_unaffected_witness :
    ((AgentBus.emit c5Bus BusEventType.watchdogMatched c5Input "evt_a" "t_a").1).sseClients
      = c5Bus.sseClients ∧
    ((AgentBus.emit c5Bus BusEventType.watchdogMatched c5Input "evt_a" "t_a").1).delivered
      = c5Bus.delivered ++ c5Bus.sseClients.map
          (fun c => (c.sid, AgentBus.mkFullEvent BusEventType.watchdogMatched c5Input "evt_a" "t_a")) ∧
    (AgentBus.emit c5Bus BusEventType.watchdogMatched c5Input "evt_a" "t_a").2
      = c5Bus.handlerTypes.contains BusEventType.watchdogMatched :=
  C5_throw_swallowed_emit_unaffected c5Bus BusEventType.watchdogMatched c5Input
    "evt_a" "t_a" (by decide)

-- ============================================================
-- C9
-- ============================================================

/-- Every entry of the alias table maps a source to itself. -/
theorem AGENT_TO_CHECKLIST_self (a b : AgentName)
    (h : AGENT_TO_CHECKLIST a = some b) : b = a := by
  cases a <;> simp_all [AGENT_TO_CHECKLIST]

/-- An event from a different source leaves an item untouched. -/
theorem checklistBusStep_other_source (e : BusEvent) (now : String)
    (item : ChecklistItem) (h : e.source ≠ item.assignedAgent) :
    checklistBusStep e now item = item := by
  cases hm : AGENT_TO_CHECKLIST e.source with
  | none => simp [checklistBusStep, hm]
  | some name =>
    have hn : name = e.source := AGENT_TO_CHECKLIST_self e.source name hm
    subst hn
    simp only [checklistBusStep, hm]
    rw [if_neg]
    intro hc
    exact h hc.1.symm

/-- A completed item is never touched again by the handler. -/
theorem checklistBusStep_completed (e : BusEvent) (now : String)
    (item : ChecklistItem) (h : item.status = ItemStatus.completed) :
    checklistBusStep e now item = item := by
  cases hm : AGENT_TO_CHECKLIST e.source with
  | none => simp [checklistBusStep, hm]
  | some name =>
    simp only [checklistBusStep, hm]
    rw [if_neg]
    intro hc
    exact hc.2 h

theorem runChecklist_completed_fixed (item : ChecklistItem)
    (evs : List (BusEvent × String)) (h : item.status = ItemStatus.completed) :
    runChecklist item evs = item := by
  induction evs with
  | nil => rfl
  | cons p ps ih =>
    unfold runChecklist
    rw [List.foldl_cons, checklistBusStep_completed p.1 p.2 item h]
    exact ih

theorem runChecklist_no_matching_source (item : ChecklistItem)
    (evs : List (BusEvent × String))
    (h : ∀ p ∈ evs, p.1.source ≠ item.assignedAgent) :
    runChecklist item evs = item := by
  induction evs with
  | nil => rfl
  | cons p ps ih =>
    unfold runChecklist
    rw [List.foldl_cons,
      checklistBusStep_other_source p.1 p.2 item (h p (List.mem_cons_self p ps))]
    exact ih fun q hq => h q (List.mem_cons_of_mem p hq)

/-- Claim C9 is refuted: `simulator` has no entry in the alias table, so a
pending checklist item assigned to `simulator` is NOT completed by the first
bus event whose source is `simulator` — it is left untouched. -/
theorem C9_unmapped_agent_never_completed :
    runChecklist c9SimItem [(c9SimEvent, "t_now")] = c9SimItem ∧
    (runChecklist c9SimItem [(c9SimEvent, "t_now")]).status ≠ ItemStatus.completed := by
  refine ⟨by decide, by decide⟩

/-- Claim C9, amended to the agents present in the alias table (vision,
watchdog, debate, letter, call-script, freedom, coach): a not-yet-completed
item assigned to such an agent X is completed — progress 100, the event's
summary as result — exactly once, by the first dispatched bus event whose
source is X, and the item (in particular its status, progress and result) is
unchanged by all later events, whatever their source. -/
theorem C9_first_matching_event_completes_once (item : ChecklistItem)
    (pre post : List (BusEvent × String)) (e : BusEvent) (now : String)
    (hmap : AGENT_TO_CHECKLIST item.assignedAgent = some item.assignedAgent)
    (hnc : item.status ≠ ItemStatus.completed)
    (hsrc : e.source = item.assignedAgent)
    (hpre : ∀ p ∈ pre, p.1.source ≠ item.assignedAgent) :
    runChecklist item pre = item ∧
    runChecklist item (pre ++ (e, now) :: post)
      = completeItemWith item e.summary now ∧
    runChecklist item (pre ++ (e, now) :: post)
      = runChecklist item (pre ++ [(e, now)]) := by
  have hpre2 : runChecklist item pre = item := runChecklist_no_matching_source item pre hpre
  have hstep : checklistBusStep e now item = completeItemWith item e.summary now := by
    simp only [checklistBusStep, hsrc, hmap]
    rw [if_pos ⟨trivial, hnc⟩]
  have hout : runChecklist item (pre ++ (e, now) :: post)
      = completeItemWith item e.summary now := by
    unfold runChecklist
    rw [List.foldl_append, List.foldl_cons]
    have h1 : List.foldl (fun it p => checklistBusStep p.1 p.2 it) item pre = item := hpre2
    rw [h1, hstep]
    exact runChecklist_completed_fixed _ post rfl
  refine ⟨hpre2, hout, ?_⟩
  rw [hout]
  unfold runChecklist
  rw [List.foldl_append]
  have h1 : List.foldl (fun it p => checklistBusStep p.1 p.2 it) item pre = item := hpre2
  rw [h1, List.foldl_cons, hstep]
  rfl

/-- Witness for the amended C9 at concrete inputs: a `watchdog` item, one earlier
`vision` event, the first `watchdog` event, one later `watchdog` event. -/
theorem C9_first_matching_event_completes_once_witness :
    runChecklist c9Item [(c9PreEvent, "t_p")] = c9Item ∧
    runChecklist c9Item ([(c9PreEvent, "t_p")] ++ (c9Event, "t_w") :: [(c9LaterEvent, "t_w2")])
      = completeItemWith c9Item c9Event.summary "t_w" ∧
    runChecklist c9Item ([(c9PreEvent, "t_p")] ++ (c9Event, "t_w") :: [(c9LaterEvent, "t_w2")])
      = runChecklist c9Item ([(c9PreEvent, "t_p")] ++ [(c9Event, "t_w")]) :=
  C9_first_matching_event_completes_once c9Item [(c9PreEvent, "t_p")]
    [(c9LaterEvent, "t_w2")] c9Event "t_w" (by decide) (by decide) (by decide) (by decide)

-- ============================================================
-- C7
-- ============================================================

/-- Claim C7: with maxRetries = 1 and no retry-variant supplied, a unit of
work that throws on its first invocation and resolves on its second is
re-invoked by the loop (the original unit of work is called twice); the call
returns success on attempt 2, the appended CallLog has retryCount = 1, and the
global totalCorrections counter grows by exactly 1. -/
theorem C7_error_retry_reinvokes (env : OrchEnv) (st0 : OrchestratorState)
    (m outStr : String) (q : QualityEvaluation)
    (hmr : env.maxRetries = 1) (hrf : env.retryFnProvided = false)
    (h0 : env.agentFn 0 = AttemptOutcome.err m)
    (h1 : env.agentFn 1 = AttemptOutcome.ok outStr q) :
    (orchestrateModel env st0).succeeded = true ∧
    (orchestrateModel env st0).attempts = 2 ∧
    (orchestrateModel env st0).agentCalls = 2 ∧
    (orchestrateModel env st0).log.retryCount = 1 ∧
    (orchestrateModel env st0).log.success = true ∧
    (orchestrateModel env st0).finalState.totalCorrections
      = st0.totalCorrections + 1 := by
  have e1 : orchLoop env (env.maxRetries + 1) 0 0 0 0 none none 0
      = LoopOut.completed outStr (if env.skipQualityCheck then defaultQuality else q) 1
          (some ("Auto-retry after error: " ++ m)) 1 2 2 := by
    rw [hmr]
    simp [orchLoop, hrf, h0, h1, hmr]
  refine ⟨?_, ?_, ?_, ?_, ?_, ?_⟩ <;>
    simp [orchestrateModel, e1, recordCall_totalCorrections]

/-- Witness for C7 at a concrete environment: `freedom`, maxRetries 1, no retry-variant,
invoker that throws once then succeeds. -/
theorem C7_error_retry_reinvokes_witness :
    (orchestrateModel c7Env initState).succeeded = true ∧
    (orchestrateModel c7Env initState).attempts = 2 ∧
    (orchestrateModel c7Env initState).agentCalls = 2 ∧
    (orchestrateModel c7Env initState).log.retryCount = 1 ∧
    (orchestrateModel c7Env initState).log.success = true ∧
    (orchestrateModel c7Env initState).finalState.totalCorrections
      = initState.totalCorrections + 1 :=
  C7_error_retry_reinvokes c7Env initState "boom" "path" c7Quality rfl rfl
    (by decide) (by decide)

-- ============================================================
-- C8
-- ============================================================

/-- Claim C8: every `orchestrate` invocation — returning or throwing, whatever
the number of internal retry attempts — appends exactly one CallLog (a single
bounded push of its one log) and performs exactly one AgentHealth update for
its agent, while every other agent's health record is left unchanged. -/
theorem C8_exactly_one_log_and_update (env : OrchEnv) (st0 : OrchestratorState)
    (b : AgentName) (hb : b ≠ env.agentName) :
    (orchestrateModel env st0).log.agent = env.agentName ∧
    (orchestrateModel env st0).finalState.callLog
      = boundedPush MAX_LOG_SIZE st0.callLog ((orchestrateModel env st0).log) ∧
    (orchestrateModel env st0).finalState.totalCalls = st0.totalCalls + 1 ∧
    (orchestrateModel env st0).finalState.agents env.agentName
      = updateHealthRecord (st0.agents env.agentName)
          (boundedPush MAX_LOG_SIZE st0.callLog ((orchestrateModel env st0).log))
          ((orchestrateModel env st0).log) env.agentName ∧
    (orchestrateModel env st0).finalState.agents b = st0.agents b := by
  rcases hL : orchLoop env (env.maxRetries + 1) 0 0 0 0 none none 0 with
    ⟨outputStr, quality, retryCount, correction, corrections, attempts, agentCalls⟩ |
    ⟨retryCount, correction, lastErr, corrections, attempts, agentCalls⟩
  · refine ⟨?_, ?_, ?_, ?_, ?_⟩ <;>
      simp [orchestrateModel, hL, recordCall, updateHealth, hb]
  · refine ⟨?_, ?_, ?_, ?_, ?_⟩ <;>
      simp [orchestrateModel, hL, recordCall, updateHealth, hb]

/-- Witness for C8 at a concrete environment, with `watchdog` as the untouched other
agent. -/
theorem C8_exactly_one_log_and_update_witness :
    (orchestrateModel c8Env initState).log.agent = c8Env.agentName ∧
    (orchestrateModel c8Env initState).finalState.callLog
      = boundedPush MAX_LOG_SIZE initState.callLog ((orchestrateModel c8Env initState).log) ∧
    (orchestrateModel c8Env initState).finalState.totalCalls = initState.totalCalls + 1 ∧
    (orchestrateModel c8Env initState).finalState.agents c8Env.agentName
      = updateHealthRecord (initState.agents c8Env.agentName)
          (boundedPush MAX_LOG_SIZE initState.callLog ((orchestrateModel c8Env initState).log))
          ((orchestrateModel c8Env initState).log) c8Env.agentName ∧
    (orchestrateModel c8Env initState).finalState.agents AgentName.watchdog
      = initState.agents AgentName.watchdog :=
  C8_exactly_one_log_and_update c8Env initState AgentName.watchdog (by decide)
